import Mathlib

/-!
Shallow embedding of the SandboxClaim controller core
(`pkg/controller/sandboxclaim/core/util.go`), the sandbox state utilities
(`pkg/controller/sandboxclaim/core/util.go`, package `sandboxutils`) and the
validating webhook (`pkg/webhook/sandboxclaim/validating/sandboxclaim_validating.go`).

Machine integers (`int32`, `int64`, `time.Duration` in nanoseconds) are
modelled as `Int`: the embedded code only compares and subtracts them, so no
wrap-around is observable.  Wall-clock reads (`metav1.Now()`, `time.Since`)
are modelled by threading an explicit `now : Int` through the functions; a
single reconciliation pass reads the clock at one instant.
-/

namespace Agents

/-- The `metav1.Condition` struct (apimachinery): type, status, reason,
message and last-transition time.  `ObservedGeneration` is not touched by the
embedded code and is omitted. -/
structure Condition where
  type : String
  status : String
  reason : String
  message : String
  lastTransitionTime : Int
deriving Repr, DecidableEq, Inhabited

/-- The apimachinery constant `metav1.ConditionTrue`. -/
def ConditionTrue : String := "True"

/-- Modelled from the spec: the API constant `SandboxClaimPhaseClaiming`
(package `api/v1alpha1`, not in the sources); the spec's phase enum is
(unset) → Claiming → Completed. -/
def SandboxClaimPhaseClaiming : String := "Claiming"

/-- Modelled from the spec: the API constant `SandboxClaimPhaseCompleted`
(package `api/v1alpha1`, not in the sources). -/
def SandboxClaimPhaseCompleted : String := "Completed"

/-- Modelled from the spec: the API constant `SandboxClaimConditionCompleted`
(package `api/v1alpha1`, not in the sources); the condition type named
`Completed` in the spec. -/
def SandboxClaimConditionCompleted : String := "Completed"

/-- Modelled from the spec: the API constant `SandboxClaimConditionTimedOut`
(package `api/v1alpha1`, not in the sources); the condition type named
`TimedOut` in the spec. -/
def SandboxClaimConditionTimedOut : String := "TimedOut"

/-- Modelled from the spec: `DefaultReplicasCount` (defined in package `core`
outside the given sources); the spec says the desired replica count
"defaults to 1 when unset". -/
def DefaultReplicasCount : Int := 1

/-- The `SandboxClaimSpec` fields read by the embedded code: target template
name, optional desired replicas (`*int32`) and optional claim timeout
(`*metav1.Duration`, nanoseconds). -/
structure SandboxClaimSpec where
  templateName : String
  replicas : Option Int
  claimTimeout : Option Int
deriving Repr, DecidableEq

/-- The `SandboxClaim` fields read by the embedded code: metadata generation
and the spec. -/
structure SandboxClaim where
  generation : Int
  spec : SandboxClaimSpec
deriving Repr, DecidableEq

/-- The `SandboxClaimStatus` struct: phase (a string; `""` is the unset
initial phase), observed generation, optional claim-start time, claimed
replica count, optional completion time, message and condition list. -/
structure SandboxClaimStatus where
  phase : String
  observedGeneration : Int
  claimStartTime : Option Int
  claimedReplicas : Int
  completionTime : Option Int
  message : String
  conditions : List Condition
deriving Repr, DecidableEq

/-- The pool descriptor (`SandboxSet`): per the spec only its existence
matters to the core, so its contents are not modelled. -/
structure SandboxSet where
deriving Repr, DecidableEq

/-- The `ClaimArgs` argument struct of `CalculateClaimStatus` (defined in
package `core` outside the given sources; its `Claim`, `SandboxSet` and
`NewStatus` fields are the ones read by `CalculateClaimStatus` and the
tests).  A `nil` SandboxSet pointer is `none`. -/
structure ClaimArgs where
  claim : SandboxClaim
  sandboxSet : Option SandboxSet
  newStatus : SandboxClaimStatus
deriving Repr, DecidableEq

/-- Core of `setCondition` acting on the pointed-to slice: replace the first
condition whose type matches, else append.  (The Go loop returns at the first
index with a matching type; an empty or nil slice appends.) -/
def setConditionList : List Condition → Condition → List Condition
  | [], c => [c]
  | x :: xs, c => if x.type = c.type then c :: xs else x :: setConditionList xs c

/-- The Go `setCondition(conditions *[]metav1.Condition, newCondition)`:
a `nil` pointer (`none`) is a no-op; otherwise the pointed-to list is
updated via `setConditionList` (a nil slice is first initialised to empty,
which coincides with `[]`). -/
def setCondition (conditions : Option (List Condition)) (c : Condition) :
    Option (List Condition) :=
  match conditions with
  | none => none
  | some l => some (setConditionList l c)

/-- `getDesiredReplicas`: the claim's `Spec.Replicas` if set, else
`DefaultReplicasCount`. -/
def getDesiredReplicas (claim : SandboxClaim) : Int :=
  match claim.spec.replicas with
  | some r => r
  | none => DefaultReplicasCount

/-- `isClaimTimeout`: false when either the configured timeout or the claim
start time is nil; otherwise `time.Since(start) >= timeout` with
`time.Since(start) = now - start`. -/
def isClaimTimeout (now : Int) (claim : SandboxClaim) (status : SandboxClaimStatus) : Bool :=
  match claim.spec.claimTimeout, status.claimStartTime with
  | none, _ => false
  | some _, none => false
  | some timeout, some start => now - start ≥ timeout

/-- `isReplicasMet`: `status.ClaimedReplicas >= getDesiredReplicas(claim)`. -/
def isReplicasMet (claim : SandboxClaim) (status : SandboxClaimStatus) : Bool :=
  status.claimedReplicas ≥ getDesiredReplicas claim

/-- `transitionToCompleted`: set phase `Completed`, message, completion time
`now`, and upsert a `Completed` condition with the given reason/message.
(`setCondition` is called on the address of the `Conditions` field, which is
never a nil pointer, so it acts as `setConditionList`.) -/
def transitionToCompleted (now : Int) (status : SandboxClaimStatus)
    (reason message : String) : SandboxClaimStatus :=
  { status with
    phase := SandboxClaimPhaseCompleted
    message := message
    completionTime := some now
    conditions := setConditionList status.conditions
      { type := SandboxClaimConditionCompleted
        status := ConditionTrue
        reason := reason
        message := message
        lastTransitionTime := now } }

/-- Renders a Go `time.Duration` for a `%v` format verb.  The Go rendering
("5s", "1m30s", …) is abstracted to the nanosecond count; no verified claim
depends on message contents. -/
def durationString (d : Int) : String := toString d

/-- `transitionToCompletedWithTimeout`: set phase `Completed`, a timeout
message, completion time `now`, then upsert a `TimedOut=true` condition with
reason `"ClaimTimeoutReached"` and a `Completed=true` condition with reason
`"TimeoutReached"`. -/
def transitionToCompletedWithTimeout (now : Int) (status : SandboxClaimStatus)
    (elapsed : Int) (claim : SandboxClaim) : SandboxClaimStatus :=
  let desiredReplicas := getDesiredReplicas claim
  let msg := "Timeout reached after " ++ durationString elapsed ++ ", claimed " ++
    toString status.claimedReplicas ++ "/" ++ toString desiredReplicas ++ " sandboxes"
  { status with
    phase := SandboxClaimPhaseCompleted
    message := msg
    completionTime := some now
    conditions :=
      setConditionList
        (setConditionList status.conditions
          { type := SandboxClaimConditionTimedOut
            status := ConditionTrue
            reason := "ClaimTimeoutReached"
            message := "Timeout after " ++ durationString elapsed ++ ", claimed " ++
              toString status.claimedReplicas ++ "/" ++ toString desiredReplicas
            lastTransitionTime := now })
        { type := SandboxClaimConditionCompleted
          status := ConditionTrue
          reason := "TimeoutReached"
          message := msg
          lastTransitionTime := now } }

/-- `transitionToCompletedWithSuccess`: set phase `Completed`, a success
message, completion time `now`, and upsert a `Completed=true` condition with
reason `"AllReplicasClaimed"`. -/
def transitionToCompletedWithSuccess (now : Int) (status : SandboxClaimStatus)
    (claim : SandboxClaim) : SandboxClaimStatus :=
  let desiredReplicas := getDesiredReplicas claim
  let msg := "Successfully claimed " ++ toString status.claimedReplicas ++ "/" ++
    toString desiredReplicas ++ " sandboxes"
  { status with
    phase := SandboxClaimPhaseCompleted
    message := msg
    completionTime := some now
    conditions := setConditionList status.conditions
      { type := SandboxClaimConditionCompleted
        status := ConditionTrue
        reason := "AllReplicasClaimed"
        message := "Successfully claimed all " ++ toString status.claimedReplicas ++ " sandboxes"
        lastTransitionTime := now } }

/-- `CalculateClaimStatus`: the phase state machine.  Returns the next status
and `skipBusinessLogic`.  Scenario order as in the source: (1) unset phase →
Claiming with start time; (2) already Completed → unchanged, continue;
(3) SandboxSet nil → Completed, skip; (4) timeout → Completed, skip;
(5) replicas met → Completed, skip; (6) otherwise unchanged, continue.
`ObservedGeneration` is always refreshed first.  In step (4) the source reads
`newStatus.ClaimStartTime.Time`, which `isClaimTimeout` has just proved
non-nil, so `getD 0` is never the default on a reachable path. -/
def CalculateClaimStatus (now : Int) (args : ClaimArgs) : SandboxClaimStatus × Bool :=
  let claim := args.claim
  let s : SandboxClaimStatus := { args.newStatus with observedGeneration := claim.generation }
  if s.phase = "" then
    ({ s with phase := SandboxClaimPhaseClaiming, claimStartTime := some now }, false)
  else if s.phase = SandboxClaimPhaseCompleted then
    (s, false)
  else if args.sandboxSet = none then
    (transitionToCompleted now s "SandboxSetNotFound" "SandboxSet not found or deleted", true)
  else if isClaimTimeout now claim s then
    (transitionToCompletedWithTimeout now s (now - s.claimStartTime.getD 0) claim, true)
  else if isReplicasMet claim s then
    (transitionToCompletedWithSuccess now s claim, true)
  else
    (s, false)

/-- Rank of a claim phase in the order unset < Claiming < Completed (used to
state phase monotonicity). -/
def phaseRank (p : String) : Nat :=
  if p = SandboxClaimPhaseCompleted then 2
  else if p = SandboxClaimPhaseClaiming then 1
  else 0

/-- Outcome of an admission handler: `admission.Allowed(msg)` or
`admission.Denied(msg)`.  The decode-error responses
(`admission.Errored`) lie outside the decode-success path the embedded
handler models. -/
inductive AdmissionResponse where
  | allowed (msg : String)
  | denied (msg : String)
deriving Repr, DecidableEq

/-- Whether an admission response is a denial. -/
def AdmissionResponse.isDenied : AdmissionResponse → Bool
  | .denied _ => true
  | .allowed _ => false

/-- The validating webhook's `handleUpdate` after both objects decoded
successfully: each side's effective replica count defaults to `1` when
`Spec.Replicas` is nil; the update is denied exactly when the two effective
counts differ, else allowed with an empty message. -/
def handleUpdate (oldClaim newClaim : SandboxClaim) : AdmissionResponse :=
  let oldReplicas : Int := match oldClaim.spec.replicas with
    | some r => r
    | none => 1
  let newReplicas : Int := match newClaim.spec.replicas with
    | some r => r
    | none => 1
  if oldReplicas ≠ newReplicas then
    .denied ("spec.replicas is immutable, cannot change from " ++ toString oldReplicas ++
      " to " ++ toString newReplicas)
  else
    .allowed ""

/-! Sandbox state utilities (package `sandboxutils`). -/

/-- Modelled from the spec: the API sandbox lifecycle phase constant for
`pending` (package `api/v1alpha1`, not in the sources). -/
def SandboxPending : String := "Pending"

/-- Modelled from the spec: the API sandbox lifecycle phase constant for
`running`. -/
def SandboxRunning : String := "Running"

/-- Modelled from the spec: the API sandbox lifecycle phase constant for
`succeeded`. -/
def SandboxSucceeded : String := "Succeeded"

/-- Modelled from the spec: the API sandbox lifecycle phase constant for
`failed`. -/
def SandboxFailed : String := "Failed"

/-- Modelled from the spec: the API sandbox lifecycle phase constant for
`terminating`. -/
def SandboxTerminating : String := "Terminating"

/-- Modelled from the spec: the derived-state constant `SandboxStateDead`
(the spec's state enum is Creating/Available/Running/Paused/Dead). -/
def SandboxStateDead : String := "Dead"

/-- Modelled from the spec: the derived-state constant `SandboxStateCreating`. -/
def SandboxStateCreating : String := "Creating"

/-- Modelled from the spec: the derived-state constant `SandboxStateAvailable`. -/
def SandboxStateAvailable : String := "Available"

/-- Modelled from the spec: the derived-state constant `SandboxStateRunning`. -/
def SandboxStateRunning : String := "Running"

/-- Modelled from the spec: the derived-state constant `SandboxStatePaused`. -/
def SandboxStatePaused : String := "Paused"

/-- Modelled from the spec: the API condition-type constant
`SandboxConditionReady` ("Ready"). -/
def SandboxConditionReady : String := "Ready"

/-- Modelled from the spec: the kind of `SandboxSetControllerKind`
(package `api/v1alpha1`). -/
def SandboxSetControllerKindKind : String := "SandboxSet"

/-- Modelled from the spec: the group/version string of
`SandboxSetControllerKind.GroupVersion()`. -/
def SandboxSetControllerAPIVersion : String := "agents.kruise.io/v1alpha1"

/-- The `metav1.OwnerReference` fields read by the embedded code; `controller`
is `true` when the Go `Controller` pointer is non-nil and points at `true`. -/
structure OwnerReference where
  kind : String
  apiVersion : String
  controller : Bool
deriving Repr, DecidableEq

/-- The apimachinery helper `metav1.GetControllerOfNoCopy`: the first owner
reference flagged as controller, if any. -/
def GetControllerOfNoCopy (refs : List OwnerReference) : Option OwnerReference :=
  refs.find? (fun r => r.controller)

/-- The pod info carried by a sandbox status; only `PodIP` is read. -/
structure SandboxPodInfo where
  podIP : String
deriving Repr, DecidableEq

/-- The `SandboxStatus` fields read by the embedded code: lifecycle phase,
pod info and conditions. -/
structure SandboxStatus where
  phase : String
  podInfo : SandboxPodInfo
  conditions : List Condition
deriving Repr, DecidableEq

/-- The `SandboxSpec` fields read by the embedded code: optional scheduled
shutdown time and the pause flag. -/
structure SandboxSpec where
  shutdownTime : Option Int
  paused : Bool
deriving Repr, DecidableEq

/-- The `Sandbox` object fields read by the embedded code.  `nspace` is the
metadata namespace (`namespace` is a Lean keyword). -/
structure Sandbox where
  nspace : String
  name : String
  resourceVersion : String
  deletionTimestamp : Option Int
  ownerReferences : List OwnerReference
  spec : SandboxSpec
  status : SandboxStatus
deriving Repr, DecidableEq

/-- Modelled from the spec: `utils.GetSandboxCondition` (package `pkg/utils`,
not in the sources) — the sandbox-status condition matched by type name,
most recent entry with that type. -/
def GetSandboxCondition (status : SandboxStatus) (condType : String) : Option Condition :=
  status.conditions.reverse.find? (fun c => c.type = condType)

/-- `IsSandboxReady`: a sandbox is ready only if its pod IP is non-empty and
its `Ready` condition exists with status explicitly `True`. -/
def IsSandboxReady (sbx : Sandbox) : Bool :=
  if sbx.status.podInfo.podIP = "" then false
  else
    match GetSandboxCondition sbx.status SandboxConditionReady with
    | none => false
    | some c => c.status = ConditionTrue

/-- `IsControlledBySandboxCR`: the sandbox's controller owner reference
exists and has the SandboxSet kind and API version. -/
def IsControlledBySandboxCR (sbx : Sandbox) : Bool :=
  match GetControllerOfNoCopy sbx.ownerReferences with
  | none => false
  | some controller =>
      controller.kind = SandboxSetControllerKindKind ∧
      controller.apiVersion = SandboxSetControllerAPIVersion

/-- `computeSandboxState`: the pure state classifier, priority ordered; the
scheduled-shutdown check is Go's
`sbx.Spec.ShutdownTime != nil && time.Since(sbx.Spec.ShutdownTime.Time) > 0`. -/
def computeSandboxState (now : Int) (sbx : Sandbox) : String × String :=
  if sbx.deletionTimestamp.isSome then
    (SandboxStateDead, "ResourceDeleted")
  else if (match sbx.spec.shutdownTime with
           | some t => now - t > 0
           | none => false : Bool) then
    (SandboxStateDead, "ShutdownTimeReached")
  else if sbx.status.phase = SandboxPending then
    (SandboxStateCreating, "ResourcePending")
  else if sbx.status.phase = SandboxSucceeded then
    (SandboxStateDead, "ResourceSucceeded")
  else if sbx.status.phase = SandboxFailed then
    (SandboxStateDead, "ResourceFailed")
  else if sbx.status.phase = SandboxTerminating then
    (SandboxStateDead, "ResourceTerminating")
  else
    let sandboxReady := IsSandboxReady sbx
    if IsControlledBySandboxCR sbx then
      if sandboxReady then (SandboxStateAvailable, "ResourceControlledBySbsAndReady")
      else (SandboxStateCreating, "ResourceControlledBySbsButNotReady")
    else
      if sbx.status.phase = SandboxRunning then
        if sbx.spec.paused then (SandboxStatePaused, "RunningResourceClaimedAndPaused")
        else
          if sandboxReady then (SandboxStateRunning, "RunningResourceClaimedAndReady")
          else (SandboxStateDead, "RunningResourceClaimedButNotReady")
      else
        (SandboxStatePaused, "NotRunningResourceClaimed")

/-- A `sandboxStateCacheEntry`: cached state and reason. -/
structure SandboxStateCacheEntry where
  state : String
  reason : String
deriving Repr, DecidableEq

/-- The global `sandboxStateCache` (`sync.Map`), modelled as an association
list keyed by the `namespace/name/resourceVersion` string.  The typed model
makes the source's corrupted-entry type assertions unrepresentable. -/
abbrev SandboxStateCache := List (String × SandboxStateCacheEntry)

/-- Cache-key construction: `fmt.Sprintf("%s/%s/%s", namespace, name, rv)`. -/
def sandboxCacheKey (sbx : Sandbox) : String :=
  sbx.nspace ++ "/" ++ sbx.name ++ "/" ++ sbx.resourceVersion

/-- `GetSandboxState`: empty resource version bypasses the cache (compute,
do not store); otherwise load from cache, or on a miss compute, store and
return.  The `sync.Map` Load / LoadOrStore pair collapses to a sequential
lookup-then-insert on the association list. -/
def GetSandboxState (now : Int) (sbx : Sandbox) (cache : SandboxStateCache) :
    (String × String) × SandboxStateCache :=
  let resourceVersion := sbx.resourceVersion
  if resourceVersion = "" then
    (computeSandboxState now sbx, cache)
  else
    let cacheKey := sandboxCacheKey sbx
    match cache.lookup cacheKey with
    | some e => ((e.state, e.reason), cache)
    | none =>
        let sr := computeSandboxState now sbx
        (sr, (cacheKey, ⟨sr.1, sr.2⟩) :: cache)

/-- `DeleteSandboxCache`: no-op on empty namespace or name; otherwise removes
every entry whose key has the `namespace/name/` base-key as a leading
segment (all resource versions of that identity). -/
def DeleteSandboxCache (nspace name : String) (cache : SandboxStateCache) :
    SandboxStateCache :=
  if nspace = "" ∨ name = "" then cache
  else
    let baseKey := nspace ++ "/" ++ name ++ "/"
    cache.filter (fun kv => ¬ (baseKey.isPrefixOf kv.1))

/-- Concrete fixture: a Claiming-phase claim whose SandboxSet is absent
(pool deleted). -/
def poolGoneArgs : ClaimArgs :=
  { claim := { generation := 2
               spec := { templateName := "pool-b", replicas := some 4, claimTimeout := none } }
    sandboxSet := none
    newStatus := { phase := SandboxClaimPhaseClaiming
                   observedGeneration := 1
                   claimStartTime := some 0
                   claimedReplicas := 1
                   completionTime := none
                   message := ""
                   conditions := [] } }

/-- Concrete fixture: a claim already in the terminal Completed phase. -/
def completedArgs : ClaimArgs :=
  { claim := { generation := 1
               spec := { templateName := "t", replicas := none, claimTimeout := none } }
    sandboxSet := none
    newStatus := { phase := SandboxClaimPhaseCompleted
                   observedGeneration := 1
                   claimStartTime := some 0
                   claimedReplicas := 0
                   completionTime := some 0
                   message := ""
                   conditions := [] } }

/-- Concrete fixture: a Claiming-phase claim with a negative configured
timeout (−10) and a claim start time (5) strictly in the future of now = 0. -/
def negTimeoutArgs : ClaimArgs :=
  { claim := { generation := 1
               spec := { templateName := "t", replicas := some 3, claimTimeout := some (-10) } }
    sandboxSet := some {}
    newStatus := { phase := SandboxClaimPhaseClaiming
                   observedGeneration := 1
                   claimStartTime := some 5
                   claimedReplicas := 0
                   completionTime := none
                   message := ""
                   conditions := [] } }

/-- Concrete fixture: a Claiming-phase claim with nonnegative timeout 10 and
claim start time 5, strictly in the future of now = 0; 0 of 3 replicas
claimed. -/
def futureStartArgs : ClaimArgs :=
  { claim := { generation := 1
               spec := { templateName := "t", replicas := some 3, claimTimeout := some 10 } }
    sandboxSet := some {}
    newStatus := { phase := SandboxClaimPhaseClaiming
                   observedGeneration := 0
                   claimStartTime := some 5
                   claimedReplicas := 0
                   completionTime := none
                   message := ""
                   conditions := [] } }

/-- Concrete fixture: a Claiming-phase claim with desired 2 replicas and 2
already claimed, pool present, no timeout configured. -/
def replicasMetArgs : ClaimArgs :=
  { claim := { generation := 1
               spec := { templateName := "t", replicas := some 2, claimTimeout := none } }
    sandboxSet := some {}
    newStatus := { phase := SandboxClaimPhaseClaiming
                   observedGeneration := 0
                   claimStartTime := some 0
                   claimedReplicas := 2
                   completionTime := none
                   message := ""
                   conditions := [] } }

/-- Concrete fixture: a claimed (no controller owner), running, paused,
not-ready sandbox with no deletion or shutdown time. -/
def pausedRunningSandbox : Sandbox :=
  { nspace := "ns"
    name := "sb"
    resourceVersion := "1"
    deletionTimestamp := none
    ownerReferences := []
    spec := { shutdownTime := none, paused := true }
    status := { phase := SandboxRunning
                podInfo := { podIP := "" }
                conditions := [] } }

/-! Helper lemmas about the embedded operations. -/

theorem setConditionList_self_mem (l : List Condition) (c : Condition) :
    c ∈ setConditionList l c := by
  induction l with
  | nil => simp [setConditionList]
  | cons a as ih =>
      by_cases h : a.type = c.type
      · simp [setConditionList, h]
      · simp only [setConditionList, if_neg h]
        exact List.mem_cons_of_mem a ih

theorem mem_setConditionList {b : Condition} {l : List Condition} {c : Condition}
    (hb : b ∈ setConditionList l c) : b ∈ l ∨ b = c := by
  induction l with
  | nil => simp [setConditionList] at hb; exact Or.inr hb
  | cons a as ih =>
      by_cases h : a.type = c.type
      · simp only [setConditionList, if_pos h] at hb
        rcases List.mem_cons.mp hb with hb | hb
        · exact Or.inr hb
        · exact Or.inl (List.mem_cons_of_mem a hb)
      · simp only [setConditionList, if_neg h] at hb
        rcases List.mem_cons.mp hb with hb | hb
        · exact Or.inl (hb ▸ List.mem_cons_self a as)
        · rcases ih hb with hb | hb
          · exact Or.inl (List.mem_cons_of_mem a hb)
          · exact Or.inr hb

theorem setConditionList_of_not_mem {l : List Condition} {c : Condition}
    (h : ∀ x ∈ l, x.type ≠ c.type) : setConditionList l c = l ++ [c] := by
  induction l with
  | nil => simp [setConditionList]
  | cons a as ih =>
      have ha : a.type ≠ c.type := h a (List.mem_cons_self a as)
      simp only [setConditionList, if_neg ha, List.cons_append, List.cons.injEq, true_and]
      exact ih (fun x hx => h x (List.mem_cons_of_mem a hx))

theorem setConditionList_replace {l : List Condition} {c : Condition}
    (h : ∃ x ∈ l, x.type = c.type) :
    ∃ j, ∃ hj : j < l.length, (l.get ⟨j, hj⟩).type = c.type ∧
      (∀ i, ∀ hi : i < l.length, i < j → (l.get ⟨i, hi⟩).type ≠ c.type) ∧
      setConditionList l c = l.set j c := by
  induction l with
  | nil => obtain ⟨x, hx, -⟩ := h; cases hx
  | cons a as ih =>
      by_cases ha : a.type = c.type
      · refine ⟨0, by simp, by simpa using ha, ?_, ?_⟩
        · intro i hi hlt; omega
        · simp [setConditionList, ha]
      · obtain ⟨x, hx, hxt⟩ := h
        have hx' : x ∈ as := by
          rcases List.mem_cons.mp hx with hx | hx
          · exact absurd (hx ▸ hxt) ha
          · exact hx
        obtain ⟨j, hj, hjt, hlt, heq⟩ := ih ⟨x, hx', hxt⟩
        refine ⟨j + 1, by simpa using Nat.succ_lt_succ hj, by simpa using hjt, ?_, ?_⟩
        · intro i hi hilt
          match i, hi with
          | 0, _ => simpa using ha
          | k + 1, hk =>
              have hk' : k < as.length := by simpa using hk
              have := hlt k hk' (by omega)
              simpa using this
        · simp only [setConditionList, if_neg ha, List.set]
          exact congrArg (a :: ·) heq

theorem setConditionList_pairwise {l : List Condition} {c : Condition}
    (h : l.Pairwise (fun a b => a.type ≠ b.type)) :
    (setConditionList l c).Pairwise (fun a b => a.type ≠ b.type) := by
  induction l with
  | nil => simp [setConditionList]
  | cons a as ih =>
      rcases List.pairwise_cons.mp h with ⟨hhead, htail⟩
      by_cases ha : a.type = c.type
      · simp only [setConditionList, if_pos ha]
        exact List.pairwise_cons.mpr ⟨fun b hb => ha ▸ hhead b hb, htail⟩
      · simp only [setConditionList, if_neg ha]
        refine List.pairwise_cons.mpr ⟨?_, ih htail⟩
        intro b hb
        rcases mem_setConditionList hb with hb | hb
        · exact hhead b hb
        · exact hb ▸ ha

theorem isClaimTimeout_obsGen (now : Int) (claim : SandboxClaim)
    (s : SandboxClaimStatus) (g : Int) :
    isClaimTimeout now claim { s with observedGeneration := g } =
      isClaimTimeout now claim s := rfl

theorem isReplicasMet_obsGen (claim : SandboxClaim) (s : SandboxClaimStatus) (g : Int) :
    isReplicasMet claim { s with observedGeneration := g } = isReplicasMet claim s := rfl

/-- C2: for every fixed input triple (claim, pool descriptor, current status)
— bundled in `ClaimArgs` — and a fixed clock reading, two calls of
`CalculateClaimStatus` with the same inputs yield an identical output status
and the same `skipBusinessLogic` value. -/
theorem CalculateClaimStatus_deterministic (now : Int) (args : ClaimArgs)
    (s₁ s₂ : SandboxClaimStatus) (k₁ k₂ : Bool)
    (h₁ : CalculateClaimStatus now args = (s₁, k₁))
    (h₂ : CalculateClaimStatus now args = (s₂, k₂)) :
    s₁ = s₂ ∧ k₁ = k₂ := by
  have h := h₁.symm.trans h₂
  exact ⟨congrArg Prod.fst h, congrArg Prod.snd h⟩

/-- Witness for C2 at a concrete new claim: both reads of the same call
result agree. -/
theorem CalculateClaimStatus_deterministic_witness :
    ({ phase := SandboxClaimPhaseClaiming, observedGeneration := 1,
       claimStartTime := some 0, claimedReplicas := 0, completionTime := none,
       message := "", conditions := [] } : SandboxClaimStatus) =
    { phase := SandboxClaimPhaseClaiming, observedGeneration := 1,
      claimStartTime := some 0, claimedReplicas := 0, completionTime := none,
      message := "", conditions := [] } ∧ false = false :=
  CalculateClaimStatus_deterministic 0
    { claim := { generation := 1,
                 spec := { templateName := "t", replicas := none, claimTimeout := none } }
      sandboxSet := some {}
      newStatus := { phase := "", observedGeneration := 0, claimStartTime := none,
                     claimedReplicas := 0, completionTime := none, message := "",
                     conditions := [] } }
    _ _ _ _ (by decide) (by decide)

/-- C6: `setCondition` on a nil list is a no-op; on a list containing an
entry of the new condition's type it replaces the first such entry in place
(the result is `l.set j c` for the first matching index `j`, so length and
the relative order of untouched entries are unchanged); otherwise it appends
exactly one entry; and a list with at most one entry per type keeps that
property. -/
theorem setCondition_spec (c : Condition) (l : List Condition) :
    setCondition none c = none ∧
    ((∃ x ∈ l, x.type = c.type) →
      ∃ j, ∃ hj : j < l.length, (l.get ⟨j, hj⟩).type = c.type ∧
        (∀ i, ∀ hi : i < l.length, i < j → (l.get ⟨i, hi⟩).type ≠ c.type) ∧
        setConditionList l c = l.set j c ∧
        (setConditionList l c).length = l.length) ∧
    ((∀ x ∈ l, x.type ≠ c.type) → setConditionList l c = l ++ [c]) ∧
    (l.Pairwise (fun a b => a.type ≠ b.type) →
      (setConditionList l c).Pairwise (fun a b => a.type ≠ b.type)) := by
  refine ⟨rfl, ?_, setConditionList_of_not_mem, setConditionList_pairwise⟩
  intro h
  obtain ⟨j, hj, hjt, hlt, heq⟩ := setConditionList_replace h
  exact ⟨j, hj, hjt, hlt, heq, by rw [heq, List.length_set]⟩

/-- Witness for C6 at concrete inputs: updating an existing type keeps one
entry in place, and a nil list stays nil. -/
theorem setCondition_spec_witness :
    setCondition none
      { type := "Completed", status := "True", reason := "R", message := "M",
        lastTransitionTime := 1 } = none ∧
    setConditionList
      [{ type := "Completed", status := "False", reason := "Old", message := "",
         lastTransitionTime := 0 }]
      { type := "Completed", status := "True", reason := "R", message := "M",
        lastTransitionTime := 1 } =
    [{ type := "Completed", status := "True", reason := "R", message := "M",
       lastTransitionTime := 1 }] := by
  have h := setCondition_spec
    { type := "Completed", status := "True", reason := "R", message := "M",
      lastTransitionTime := 1 }
    [{ type := "Completed", status := "False", reason := "Old", message := "",
       lastTransitionTime := 0 }]
  obtain ⟨j, hj, -, -, heq, -⟩ := h.2.1 ⟨_, List.mem_singleton_self _, rfl⟩
  have hj0 : j = 0 := by simp at hj; omega
  subst hj0
  exact ⟨h.1, heq.trans (by decide)⟩

/-- C7: for every update whose old and new objects decode successfully, the
validating webhook denies exactly when the effective desired replica count
(an unset `Replicas` counts as 1 on both sides) changes; updates keeping the
effective count equal are allowed. -/
theorem handleUpdate_denies_iff (oldClaim newClaim : SandboxClaim) :
    ((handleUpdate oldClaim newClaim).isDenied = true ↔
      oldClaim.spec.replicas.getD 1 ≠ newClaim.spec.replicas.getD 1) ∧
    (oldClaim.spec.replicas.getD 1 = newClaim.spec.replicas.getD 1 →
      handleUpdate oldClaim newClaim = .allowed "") := by
  have harr : ∀ o : Option Int,
      (match o with | some r => r | none => (1 : Int)) = o.getD 1 := by
    intro o; cases o <;> rfl
  constructor
  · unfold handleUpdate
    rw [harr, harr]
    by_cases h : oldClaim.spec.replicas.getD 1 = newClaim.spec.replicas.getD 1
    · simp [h, AdmissionResponse.isDenied]
    · simp [h, AdmissionResponse.isDenied]
  · intro h
    unfold handleUpdate
    rw [harr, harr]
    simp [h]

/-- Witness for C7: changing `Replicas` from unset to an explicit 1 keeps the
effective count equal and is allowed. -/
theorem handleUpdate_denies_iff_witness :
    handleUpdate
      { generation := 1,
        spec := { templateName := "t", replicas := none, claimTimeout := none } }
      { generation := 1,
        spec := { templateName := "t", replicas := some 1, claimTimeout := none } } =
    .allowed "" :=
  (handleUpdate_denies_iff
    { generation := 1,
      spec := { templateName := "t", replicas := none, claimTimeout := none } }
    { generation := 1,
      spec := { templateName := "t", replicas := some 1, claimTimeout := none } }).2
    (by decide)

/-- C9: for every sandbox whose resource version is empty and every cache,
`GetSandboxState` returns exactly `computeSandboxState` of the sandbox and
leaves the cache unchanged (no entry read to produce the result, no entry
stored). -/
theorem GetSandboxState_emptyResourceVersion (now : Int) (sbx : Sandbox)
    (cache : SandboxStateCache) (h : sbx.resourceVersion = "") :
    GetSandboxState now sbx cache = (computeSandboxState now sbx, cache) := by
  unfold GetSandboxState
  rw [if_pos h]

/-- Witness for C9: an unpersisted deleted sandbox is classified fresh and a
nonempty cache is untouched. -/
theorem GetSandboxState_emptyResourceVersion_witness :
    GetSandboxState 0
      { nspace := "ns", name := "sb", resourceVersion := "",
        deletionTimestamp := some 3, ownerReferences := [],
        spec := { shutdownTime := none, paused := false },
        status := { phase := "Running", podInfo := { podIP := "" }, conditions := [] } }
      [("ns/sb/7", { state := "Dead", reason := "ResourceDeleted" })] =
    ((SandboxStateDead, "ResourceDeleted"),
      [("ns/sb/7", { state := "Dead", reason := "ResourceDeleted" })]) :=
  (GetSandboxState_emptyResourceVersion 0
    { nspace := "ns", name := "sb", resourceVersion := "",
      deletionTimestamp := some 3, ownerReferences := [],
      spec := { shutdownTime := none, paused := false },
      status := { phase := "Running", podInfo := { podIP := "" }, conditions := [] } }
    [("ns/sb/7", { state := "Dead", reason := "ResourceDeleted" })] rfl).trans
    (by decide)

/-- C10: for every cache, `DeleteSandboxCache` with an empty namespace or an
empty name returns immediately and leaves the cache unchanged. -/
theorem DeleteSandboxCache_empty_id (nspace name : String) (cache : SandboxStateCache)
    (h : nspace = "" ∨ name = "") :
    DeleteSandboxCache nspace name cache = cache := by
  unfold DeleteSandboxCache
  rw [if_pos h]

/-- Witness for C10: an empty namespace leaves a matching-name entry in
place. -/
theorem DeleteSandboxCache_empty_id_witness :
    DeleteSandboxCache "" "sb"
      [("ns/sb/7", { state := "Dead", reason := "ResourceDeleted" })] =
    [("ns/sb/7", { state := "Dead", reason := "ResourceDeleted" })] :=
  DeleteSandboxCache_empty_id "" "sb"
    [("ns/sb/7", { state := "Dead", reason := "ResourceDeleted" })] (Or.inl rfl)


theorem CalculateClaimStatus_notInit_notCompleted (now : Int) (args : ClaimArgs)
    (hp1 : ¬ args.newStatus.phase = "")
    (hp2 : ¬ args.newStatus.phase = SandboxClaimPhaseCompleted) :
    CalculateClaimStatus now args =
      (if args.sandboxSet = none then
        (transitionToCompleted now
          { args.newStatus with observedGeneration := args.claim.generation }
          "SandboxSetNotFound" "SandboxSet not found or deleted", true)
      else if isClaimTimeout now args.claim
          { args.newStatus with observedGeneration := args.claim.generation } then
        (transitionToCompletedWithTimeout now
          { args.newStatus with observedGeneration := args.claim.generation }
          (now - args.newStatus.claimStartTime.getD 0) args.claim, true)
      else if isReplicasMet args.claim
          { args.newStatus with observedGeneration := args.claim.generation } then
        (transitionToCompletedWithSuccess now
          { args.newStatus with observedGeneration := args.claim.generation } args.claim, true)
      else
        ({ args.newStatus with observedGeneration := args.claim.generation }, false)) := by
  simp only [CalculateClaimStatus]
  rw [if_neg hp1, if_neg hp2]

/-- C1 counterexample: for a Claiming-phase claim whose SandboxSet is absent
(`poolGoneArgs`), `CalculateClaimStatus` does transition to Completed with
skip = true, but the Completed condition carries the reason
"SandboxSetNotFound" and no condition carries the reason "PoolNotFound"
stated by the claim. -/
theorem CalculateClaimStatus_poolNotFound_counterexample :
    (CalculateClaimStatus 0 poolGoneArgs).1.phase = SandboxClaimPhaseCompleted ∧
    (CalculateClaimStatus 0 poolGoneArgs).2 = true ∧
    (∃ c ∈ (CalculateClaimStatus 0 poolGoneArgs).1.conditions,
      c.type = SandboxClaimConditionCompleted ∧ c.status = ConditionTrue ∧
      c.reason = "SandboxSetNotFound") ∧
    (∀ c ∈ (CalculateClaimStatus 0 poolGoneArgs).1.conditions,
      c.reason ≠ "PoolNotFound") := by
  decide

/-- C1 (amended): for every claim in phase Claiming whose pool descriptor
(SandboxSet) is absent, `CalculateClaimStatus` returns phase Completed, a
completion timestamp set to now, a Completed condition with status true and
reason "SandboxSetNotFound" (the reason the spec abstracts as
"PoolNotFound"), together with skipBusinessLogic = true. -/
theorem CalculateClaimStatus_sandboxSetNotFound (now : Int) (args : ClaimArgs)
    (h1 : args.newStatus.phase = SandboxClaimPhaseClaiming)
    (h2 : args.sandboxSet = none) :
    (CalculateClaimStatus now args).1.phase = SandboxClaimPhaseCompleted ∧
    (CalculateClaimStatus now args).1.completionTime = some now ∧
    (CalculateClaimStatus now args).2 = true ∧
    ∃ c ∈ (CalculateClaimStatus now args).1.conditions,
      c.type = SandboxClaimConditionCompleted ∧ c.status = ConditionTrue ∧
      c.reason = "SandboxSetNotFound" := by
  have hp1 : ¬ args.newStatus.phase = "" := by rw [h1]; decide
  have hp2 : ¬ args.newStatus.phase = SandboxClaimPhaseCompleted := by rw [h1]; decide
  have hr : CalculateClaimStatus now args =
      (transitionToCompleted now
        { args.newStatus with observedGeneration := args.claim.generation }
        "SandboxSetNotFound" "SandboxSet not found or deleted", true) := by
    rw [CalculateClaimStatus_notInit_notCompleted now args hp1 hp2, if_pos h2]
  rw [hr]
  exact ⟨rfl, rfl, rfl, ⟨_, setConditionList_self_mem _ _, rfl, rfl, rfl⟩⟩

/-- Witness for C1 (amended): the concrete pool-gone input terminalizes with
skip = true. -/
theorem CalculateClaimStatus_sandboxSetNotFound_witness :
    (CalculateClaimStatus 7 poolGoneArgs).1.phase = SandboxClaimPhaseCompleted ∧
    (CalculateClaimStatus 7 poolGoneArgs).2 = true :=
  have h := CalculateClaimStatus_sandboxSetNotFound 7 poolGoneArgs rfl rfl
  ⟨h.1, h.2.2.1⟩

/-- C3: over inputs whose phase is one of unset, Claiming, Completed, the
phase returned by `CalculateClaimStatus` never decreases in the order
unset < Claiming < Completed, and Completed is absorbing: a Completed input
phase is returned as Completed. -/
theorem CalculateClaimStatus_phase_monotone (now : Int) (args : ClaimArgs)
    (h : args.newStatus.phase = "" ∨ args.newStatus.phase = SandboxClaimPhaseClaiming ∨
         args.newStatus.phase = SandboxClaimPhaseCompleted) :
    phaseRank args.newStatus.phase ≤ phaseRank (CalculateClaimStatus now args).1.phase ∧
    (args.newStatus.phase = SandboxClaimPhaseCompleted →
      (CalculateClaimStatus now args).1.phase = SandboxClaimPhaseCompleted) := by
  rcases h with h | h | h
  · constructor
    · have hres : (CalculateClaimStatus now args).1.phase = SandboxClaimPhaseClaiming := by
        simp [CalculateClaimStatus, h]
      rw [hres, h]
      simp [phaseRank, SandboxClaimPhaseClaiming, SandboxClaimPhaseCompleted]
    · intro hc
      rw [h] at hc
      simp [SandboxClaimPhaseCompleted] at hc
  · constructor
    · have hone : 1 ≤ phaseRank (CalculateClaimStatus now args).1.phase := by
        simp only [CalculateClaimStatus, h]
        split_ifs <;>
          simp [phaseRank, transitionToCompleted, transitionToCompletedWithTimeout,
            transitionToCompletedWithSuccess, SandboxClaimPhaseClaiming,
            SandboxClaimPhaseCompleted]
      rw [h]
      simpa [phaseRank, SandboxClaimPhaseClaiming, SandboxClaimPhaseCompleted] using hone
    · intro hc
      rw [h] at hc
      simp [SandboxClaimPhaseClaiming, SandboxClaimPhaseCompleted] at hc
  · have hres : (CalculateClaimStatus now args).1.phase = SandboxClaimPhaseCompleted := by
      simp [CalculateClaimStatus, h, SandboxClaimPhaseCompleted]
    exact ⟨by rw [h, hres], fun _ => hres⟩

/-- Witness for C3: a concrete Completed-phase input keeps rank and phase. -/
theorem CalculateClaimStatus_phase_monotone_witness :
    phaseRank SandboxClaimPhaseCompleted ≤
      phaseRank (CalculateClaimStatus 0 completedArgs).1.phase ∧
    (SandboxClaimPhaseCompleted = SandboxClaimPhaseCompleted →
      (CalculateClaimStatus 0 completedArgs).1.phase = SandboxClaimPhaseCompleted) :=
  CalculateClaimStatus_phase_monotone 0 completedArgs (Or.inr (Or.inr rfl))

/-- C4 counterexample: with a configured timeout of −10 (Go `time.Duration`
is a signed integer) and a claim start time 5 strictly in the future of
now = 0 (`negTimeoutArgs`), the elapsed time −5 satisfies
`elapsed >= timeout`, so `isClaimTimeout` reports true and
`CalculateClaimStatus` takes the timeout transition — refuting "not
timed-out regardless of the configured timeout duration". -/
theorem isClaimTimeout_future_counterexample :
    isClaimTimeout 0 negTimeoutArgs.claim negTimeoutArgs.newStatus = true ∧
    (CalculateClaimStatus 0 negTimeoutArgs).2 = true ∧
    ∃ c ∈ (CalculateClaimStatus 0 negTimeoutArgs).1.conditions,
      c.type = SandboxClaimConditionTimedOut ∧ c.reason = "ClaimTimeoutReached" := by
  decide

/-- C4 (amended): for every claim with a configured nonnegative timeout and
every status whose claim start time is strictly in the future of now,
`isClaimTimeout` returns false, and `CalculateClaimStatus` (on a
Claiming-phase input with the pool present) does not take the timeout
transition: it returns either the unchanged status or the
all-replicas-claimed transition. -/
theorem isClaimTimeout_future_start (now : Int) (args : ClaimArgs) (timeout start : Int)
    (ht : args.claim.spec.claimTimeout = some timeout) (hnn : 0 ≤ timeout)
    (hs : args.newStatus.claimStartTime = some start) (hf : now < start) :
    isClaimTimeout now args.claim args.newStatus = false ∧
    (args.newStatus.phase = SandboxClaimPhaseClaiming → args.sandboxSet ≠ none →
      CalculateClaimStatus now args =
        ({ args.newStatus with observedGeneration := args.claim.generation }, false) ∨
      CalculateClaimStatus now args =
        (transitionToCompletedWithSuccess now
          { args.newStatus with observedGeneration := args.claim.generation }
          args.claim, true)) := by
  have hto : isClaimTimeout now args.claim args.newStatus = false := by
    simp only [isClaimTimeout, ht, hs, ge_iff_le, decide_eq_false_iff_not, not_le]
    omega
  refine ⟨hto, fun hp hset => ?_⟩
  have hp1 : ¬ args.newStatus.phase = "" := by rw [hp]; decide
  have hp2 : ¬ args.newStatus.phase = SandboxClaimPhaseCompleted := by rw [hp]; decide
  have hto'' : ¬ (isClaimTimeout now args.claim
      { args.newStatus with observedGeneration := args.claim.generation } = true) := by
    rw [isClaimTimeout_obsGen, hto]
    exact Bool.false_ne_true
  rw [CalculateClaimStatus_notInit_notCompleted now args hp1 hp2, if_neg hset, if_neg hto'']
  by_cases hrm : isReplicasMet args.claim
      { args.newStatus with observedGeneration := args.claim.generation } = true
  · right
    rw [if_pos hrm]
  · left
    rw [if_neg hrm]

/-- Witness for C4 (amended): the concrete future-start claim with timeout 10
is not timed out and stays in Claiming with skip = false. -/
theorem isClaimTimeout_future_start_witness :
    isClaimTimeout 0 futureStartArgs.claim futureStartArgs.newStatus = false ∧
    (CalculateClaimStatus 0 futureStartArgs =
        ({ futureStartArgs.newStatus with
           observedGeneration := futureStartArgs.claim.generation }, false) ∨
     CalculateClaimStatus 0 futureStartArgs =
        (transitionToCompletedWithSuccess 0
          { futureStartArgs.newStatus with
            observedGeneration := futureStartArgs.claim.generation }
          futureStartArgs.claim, true)) :=
  have h := isClaimTimeout_future_start 0 futureStartArgs 10 5 rfl (by decide) rfl (by decide)
  ⟨h.1, h.2 rfl (by decide)⟩

/-- C5: for every Claiming-phase claim with the pool present and the timeout
check not firing, `CalculateClaimStatus` skips exactly when the claimed
replicas reach the desired count (`Spec.Replicas`, defaulting to 1 when
unset); in that case it transitions to Completed with a completion timestamp
and a Completed=true condition with reason "AllReplicasClaimed", and below
the threshold it returns the status with phase unchanged and
skipBusinessLogic = false. -/
theorem CalculateClaimStatus_replicasMet (now : Int) (args : ClaimArgs)
    (h1 : args.newStatus.phase = SandboxClaimPhaseClaiming)
    (h2 : args.sandboxSet ≠ none)
    (h3 : isClaimTimeout now args.claim args.newStatus = false) :
    ((CalculateClaimStatus now args).2 = true ↔
      getDesiredReplicas args.claim ≤ args.newStatus.claimedReplicas) ∧
    (getDesiredReplicas args.claim ≤ args.newStatus.claimedReplicas →
      (CalculateClaimStatus now args).1.phase = SandboxClaimPhaseCompleted ∧
      (CalculateClaimStatus now args).1.completionTime = some now ∧
      ∃ c ∈ (CalculateClaimStatus now args).1.conditions,
        c.type = SandboxClaimConditionCompleted ∧ c.status = ConditionTrue ∧
        c.reason = "AllReplicasClaimed") ∧
    (args.newStatus.claimedReplicas < getDesiredReplicas args.claim →
      CalculateClaimStatus now args =
        ({ args.newStatus with observedGeneration := args.claim.generation }, false)) := by
  have hp1 : ¬ args.newStatus.phase = "" := by rw [h1]; decide
  have hp2 : ¬ args.newStatus.phase = SandboxClaimPhaseCompleted := by rw [h1]; decide
  have hto'' : ¬ (isClaimTimeout now args.claim
      { args.newStatus with observedGeneration := args.claim.generation } = true) := by
    rw [isClaimTimeout_obsGen, h3]
    exact Bool.false_ne_true
  by_cases hm : getDesiredReplicas args.claim ≤ args.newStatus.claimedReplicas
  · have hrm : isReplicasMet args.claim
        { args.newStatus with observedGeneration := args.claim.generation } = true := by
      simp [isReplicasMet]
      omega
    have hr : CalculateClaimStatus now args =
        (transitionToCompletedWithSuccess now
          { args.newStatus with observedGeneration := args.claim.generation }
          args.claim, true) := by
      rw [CalculateClaimStatus_notInit_notCompleted now args hp1 hp2, if_neg h2,
        if_neg hto'', if_pos hrm]
    rw [hr]
    exact ⟨by simp [hm],
      fun _ => ⟨rfl, rfl, ⟨_, setConditionList_self_mem _ _, rfl, rfl, rfl⟩⟩,
      fun hlt => absurd hm (by omega)⟩
  · have hrm'' : ¬ (isReplicasMet args.claim
        { args.newStatus with observedGeneration := args.claim.generation } = true) := by
      simp [isReplicasMet]
      omega
    have hr : CalculateClaimStatus now args =
        ({ args.newStatus with observedGeneration := args.claim.generation }, false) := by
      rw [CalculateClaimStatus_notInit_notCompleted now args hp1 hp2, if_neg h2,
        if_neg hto'', if_neg hrm'']
    rw [hr]
    exact ⟨by simp [hm], fun hge => absurd hge hm, fun _ => rfl⟩

/-- Witness for C5: a concrete claim with desired 2 and 2 claimed replicas
terminalizes with skip = true. -/
theorem CalculateClaimStatus_replicasMet_witness :
    (CalculateClaimStatus 0 replicasMetArgs).2 = true ∧
    (CalculateClaimStatus 0 replicasMetArgs).1.phase = SandboxClaimPhaseCompleted :=
  have h := CalculateClaimStatus_replicasMet 0 replicasMetArgs rfl (by decide) rfl
  ⟨h.1.mpr (by decide), (h.2.1 (by decide)).1⟩

/-- C8: for every sandbox that is not deletion-pending, has no elapsed
scheduled shutdown time, has lifecycle phase Running and is not controlled
by a SandboxSet owner, `computeSandboxState` returns Paused when the pause
flag is set, else Running when the sandbox is ready (`IsSandboxReady`:
non-empty pod IP and a Ready condition explicitly true), else Dead. -/
theorem computeSandboxState_claimed_running (now : Int) (sbx : Sandbox)
    (h1 : sbx.deletionTimestamp = none)
    (h2 : ∀ t, sbx.spec.shutdownTime = some t → now - t ≤ 0)
    (h3 : sbx.status.phase = SandboxRunning)
    (h4 : IsControlledBySandboxCR sbx = false) :
    computeSandboxState now sbx =
      if sbx.spec.paused then (SandboxStatePaused, "RunningResourceClaimedAndPaused")
      else if IsSandboxReady sbx then (SandboxStateRunning, "RunningResourceClaimedAndReady")
      else (SandboxStateDead, "RunningResourceClaimedButNotReady") := by
  rcases hst : sbx.spec.shutdownTime with _ | t
  · simp [computeSandboxState, h1, h3, h4, hst, SandboxRunning, SandboxPending,
      SandboxSucceeded, SandboxFailed, SandboxTerminating]
  · have hng : ¬ (now - t > 0) := by have := h2 t hst; omega
    simp [computeSandboxState, h1, h3, h4, hst, hng, SandboxRunning, SandboxPending,
      SandboxSucceeded, SandboxFailed, SandboxTerminating]

/-- Witness for C8: the concrete paused, claimed, running sandbox is
classified Paused. -/
theorem computeSandboxState_claimed_running_witness :
    computeSandboxState 0 pausedRunningSandbox =
      (SandboxStatePaused, "RunningResourceClaimedAndPaused") :=
  (computeSandboxState_claimed_running 0 pausedRunningSandbox
    rfl (fun t ht => Option.noConfusion ht) rfl (by decide)).trans (by decide)

end Agents
